import Mathlib

/-!
# Verification of the Astrobee arm behavior nodelet

Shallow embedding of `src/behaviors/arm/src/arm_nodelet.cc` (class
`arm::ArmNodelet`).  The nodelet is a finite state machine sequencing
pan/tilt/gripper sub-actions.  Joint positions, goals and tolerances are
C++ `double`s holding human-unit angles; they are modelled as rationals
(the code performs only affine arithmetic, absolute values and
comparisons on them).  Side effects (publishing joint goals, sending
action results, starting and stopping the two timers, feedback) are
modelled as an explicit output list.  The driver-unit / human-unit
affine conversion (`HUMAN = SCALE * DRIVER + OFFSET`, with the gripper
calibration-sentinel special case) is a bijection applied only at the
telemetry and command boundaries; the model works in human units
throughout, so a published joint command carries the human-form goal.
-/

namespace ArmNodelet

/-- Joint types, from `enum JointType { PAN, TILT, GRIPPER }`. -/
inductive JointType
  | PAN
  | TILT
  | GRIPPER
deriving DecidableEq

/-- Per-joint data from `struct JointInfo`: the current value `val`, the
current goal `goal` and the tolerance `tol`, all in HUMAN form.  The
`name`/`generic` strings and the `offset`/`scale` conversion constants
are boundary data not carried in the model (see the file comment). -/
structure JointInfo where
  val : ℚ
  goal : ℚ
  tol : ℚ
deriving DecidableEq

/-- The `JointMap joints_` member: after `Initialize` it always holds
exactly the three joints PAN, TILT and GRIPPER. -/
structure Joints where
  pan : JointInfo
  tilt : JointInfo
  gripper : JointInfo
deriving DecidableEq

/-- Lookup `joints_[t]`. -/
def Joints.get (j : Joints) : JointType → JointInfo
  | .PAN => j.pan
  | .TILT => j.tilt
  | .GRIPPER => j.gripper

/-- Write `joints_[t].val = v`. -/
def Joints.setVal (j : Joints) : JointType → ℚ → Joints
  | .PAN, v => { j with pan := { j.pan with val := v } }
  | .TILT, v => { j with tilt := { j.tilt with val := v } }
  | .GRIPPER, v => { j with gripper := { j.gripper with val := v } }

/-- Write `joints_[t].goal = v`. -/
def Joints.setGoal (j : Joints) : JointType → ℚ → Joints
  | .PAN, v => { j with pan := { j.pan with goal := v } }
  | .TILT, v => { j with tilt := { j.tilt with goal := v } }
  | .GRIPPER, v => { j with gripper := { j.gripper with goal := v } }

/-- The 13 FSM states of `ff_msgs::ArmState`. -/
inductive ArmState
  | INITIALIZING
  | UNKNOWN
  | STOWED
  | DEPLOYED
  | PANNING
  | TILTING
  | SETTING
  | CALIBRATING
  | STOWING_SETTING
  | STOWING_PANNING
  | STOWING_TILTING
  | DEPLOYING_PANNING
  | DEPLOYING_TILTING
deriving DecidableEq

/-- The 14 FSM events of `enum : FSM::Event`.  In the source they are
distinct bits of a bitmask; delivered events are always single bits, so
they are modelled as a plain enumeration (a registration under the mask
`TIMEOUT | GOAL_CANCEL` becomes two table entries). -/
inductive Event
  | READY
  | DEPLOYED
  | STOWED
  | GOAL_DEPLOY
  | GOAL_STOW
  | GOAL_MOVE
  | GOAL_CALIBRATE
  | GOAL_SET
  | GOAL_CANCEL
  | PAN_COMPLETE
  | TILT_COMPLETE
  | GRIPPER_COMPLETE
  | CALIBRATE_COMPLETE
  | TIMEOUT
deriving DecidableEq

/-- Response codes of `ff_msgs::ArmResult` used by this file. -/
inductive ResponseCode
  | SUCCESS
  | PREEMPTED
  | INVALID_COMMAND
  | BAD_TILT_VALUE
  | BAD_PAN_VALUE
  | BAD_GRIPPER_VALUE
  | NOT_ALLOWED
  | TILT_FAILED
  | PAN_FAILED
  | GRIPPER_FAILED
  | COMMUNICATION_ERROR
  | COLLISION_AVOIDED
  | CALIBRATE_FAILED
  | NEED_TO_CALIBRATE
deriving DecidableEq

/-- Modelled from the spec: the numeric values of the `ff_msgs::ArmResult`
response constants (the message definition is not part of the sources;
only the sign convention matters to the code: positive = success,
negative = aborted/failed, zero = preempted). -/
def responseValue : ResponseCode → Int
  | .SUCCESS => 1
  | .PREEMPTED => 0
  | .INVALID_COMMAND => -1
  | .BAD_TILT_VALUE => -2
  | .BAD_PAN_VALUE => -3
  | .BAD_GRIPPER_VALUE => -4
  | .NOT_ALLOWED => -5
  | .TILT_FAILED => -6
  | .PAN_FAILED => -7
  | .GRIPPER_FAILED => -8
  | .COMMUNICATION_ERROR => -9
  | .COLLISION_AVOIDED => -10
  | .CALIBRATE_FAILED => -13
  | .NEED_TO_CALIBRATE => -14

/-- The three outcome channels of `ff_util::FreeFlyerActionState` used by
`SendResult`. -/
inductive Outcome
  | SUCCESS_CH
  | ABORTED
  | PREEMPTED_CH
deriving DecidableEq

/-- Channel selection in `Result`: `response > 0` goes to SUCCESS,
`response < 0` to ABORTED, otherwise PREEMPTED. -/
def outcomeOf (code : ResponseCode) : Outcome :=
  if responseValue code > 0 then .SUCCESS_CH
  else if responseValue code < 0 then .ABORTED
  else .PREEMPTED_CH

/-- Observable side effects of the nodelet, in order of emission. -/
inductive Output
  | jointCommand (t : JointType) (goalHuman : ℚ)
  | goalTimerRestart
  | goalTimerStop
  | watchdogRestart
  | resultSent (o : Outcome) (code : ResponseCode)
  | feedbackSent (st : ArmState) (pan tilt gripper : ℚ)
  | jointSamplePublished
deriving DecidableEq

/-- Compiled-in constants of `ArmNodelet` (human units). -/
def K_PAN_MIN : ℚ := -90

def K_PAN_MAX : ℚ := 90

def K_PAN_STOW : ℚ := 0

def K_PAN_DEPLOY : ℚ := 0

def K_TILT_MIN : ℚ := -20

def K_TILT_MAX : ℚ := 180

def K_TILT_STOW : ℚ := 180

def K_TILT_DEPLOY : ℚ := 0

def K_TILT_SAFE : ℚ := 90

def K_GRIPPER_STOW : ℚ := 20

def K_GRIPPER_DEPLOY : ℚ := 20

def K_GRIPPER_OPEN : ℚ := 45

def K_GRIPPER_CLOSE : ℚ := 20

def K_GRIPPER_CAL : ℚ := -100

/-- The C library `fabs` (see `fabs_eq_abs`). -/
def fabs (x : ℚ) : ℚ := if x < 0 then -x else x

/-- `ArmNodelet::Equal`: angular wraparound closeness test
`(180 - fabs(fabs(joints_[t].val - v) - 180)) < joints_[t].tol`. -/
def Equal (j : Joints) (t : JointType) (v : ℚ) : Bool :=
  decide ((180 - fabs (fabs ((j.get t).val - v) - 180)) < (j.get t).tol)

/-- `ArmNodelet::IsStowed`: both pan and tilt are at the stow pose. -/
def IsStowed (j : Joints) : Bool :=
  Equal j .PAN K_PAN_STOW && Equal j .TILT K_TILT_STOW

/-- `ArmNodelet::RequiresClosing`: the gripper requires closing only if
it is calibrated (not at the calibration sentinel) and not already at
the stow position. -/
def RequiresClosing (j : Joints) : Bool :=
  if Equal j .GRIPPER K_GRIPPER_CAL then false
  else !Equal j .GRIPPER K_GRIPPER_STOW

/-- `ArmNodelet::Arm(type)`: publish a single-joint goal command
downstream (carrying the joint's current goal; the human-to-driver
affine conversion happens at this boundary) and restart the goal
timeout timer.  After `Initialize` the joint map always contains all
three joints, so the `joints_.find(type) == joints_.end()` failure
branch is dead and the call always returns `true`; the FSM handlers'
`if (!Arm(...))` short-circuits are therefore unreachable and the model
omits them. -/
def ArmCmd (j : Joints) (t : JointType) : List Output :=
  [Output.jointCommand t (j.get t).goal, Output.goalTimerRestart]

/-- Snap every joint's goal to its current value: the loop at the top of
`ArmNodelet::Result`. -/
def snapGoals (j : Joints) : Joints :=
  { pan := { j.pan with goal := j.pan.val },
    tilt := { j.tilt with goal := j.tilt.val },
    gripper := { j.gripper with goal := j.gripper.val } }

/-- The set of active sub-action states: exactly the cases of the
`switch (fsm_.GetState())` in `ArmNodelet::Result` that force
`send = true` (the same nine states gate feedback in
`JointStateCallback`). -/
def activeState : ArmState → Bool
  | .PANNING => true
  | .TILTING => true
  | .SETTING => true
  | .CALIBRATING => true
  | .STOWING_SETTING => true
  | .STOWING_PANNING => true
  | .STOWING_TILTING => true
  | .DEPLOYING_PANNING => true
  | .DEPLOYING_TILTING => true
  | _ => false

/-- Return value of `ArmNodelet::Result`: the joint map after the goal
snap, the FSM state the call resolves to, and the emitted outputs. -/
structure ResultOut where
  joints : Joints
  next : ArmState
  outputs : List Output
deriving DecidableEq

/-- `ArmNodelet::Result(response, send)`, called with `st` the state the
FSM currently reports (`fsm_.GetState()` — during a transition this is
the state being left).  Snaps every goal to the current value (the
commented-out `Arm(PAN); Arm(TILT);` re-issue is absent, so no joint
command is published), sends the result on the channel chosen by the
sign of the response if `send` was requested or the current state is an
active sub-action state, and resolves to INITIALIZING on a
communication error, else STOWED or DEPLOYED by `IsStowed`. -/
def Result (st : ArmState) (j : Joints) (code : ResponseCode) (send : Bool) : ResultOut :=
  let j' := snapGoals j
  let doSend := send || activeState st
  let outs := if doSend then [Output.resultSent (outcomeOf code) code] else []
  let next :=
    if code = ResponseCode.COMMUNICATION_ERROR then ArmState.INITIALIZING
    else if IsStowed j' then ArmState.STOWED
    else ArmState.DEPLOYED
  ⟨j', next, outs⟩

/-- The mutable nodelet state the claims are about: the FSM state and the
joint map. -/
structure Machine where
  state : ArmState
  joints : Joints
deriving DecidableEq

/-- Wrap a `Result` call made from inside an FSM transition handler: the
FSM adopts the returned state, and the snapped joint map replaces
`joints_`. -/
def applyResult (m : Machine) (code : ResponseCode) : Machine × List Output :=
  let r := Result m.state m.joints code false
  (⟨r.next, r.joints⟩, r.outputs)

/-- `fsm_.Update(e)`: the transition table registered in the
`ArmNodelet` constructor, one arm per `fsm_.Add` call (a mask
`TIMEOUT | GOAL_CANCEL` yields two arms, and the two-state
`Add(STOWED, DEPLOYED, GOAL_MOVE, ...)` yields two arms).  A
state/event pair with no table entry is ignored: no transition, no
side effect. -/
def update (m : Machine) (e : Event) : Machine × List Output :=
  match m.state, e with
  | .INITIALIZING, .READY => ({ m with state := .UNKNOWN }, [])
  | .UNKNOWN, .STOWED => ({ m with state := .STOWED }, [])
  | .UNKNOWN, .DEPLOYED => ({ m with state := .DEPLOYED }, [])
  | .STOWED, .DEPLOYED => ({ m with state := .DEPLOYED }, [])
  | .DEPLOYED, .STOWED => ({ m with state := .STOWED }, [])
  | .STOWED, .GOAL_DEPLOY =>
      ({ m with state := .DEPLOYING_PANNING }, ArmCmd m.joints .PAN)
  | .DEPLOYING_PANNING, .PAN_COMPLETE =>
      ({ m with state := .DEPLOYING_TILTING }, ArmCmd m.joints .TILT)
  | .DEPLOYING_TILTING, .TILT_COMPLETE => applyResult m .SUCCESS
  | .DEPLOYED, .GOAL_STOW =>
      if RequiresClosing m.joints then
        ({ m with state := .STOWING_SETTING }, ArmCmd m.joints .GRIPPER)
      else
        ({ m with state := .STOWING_PANNING }, ArmCmd m.joints .PAN)
  | .STOWING_SETTING, .GRIPPER_COMPLETE =>
      ({ m with state := .STOWING_PANNING }, ArmCmd m.joints .PAN)
  | .STOWING_SETTING, .TIMEOUT => applyResult m .GRIPPER_FAILED
  | .STOWING_SETTING, .GOAL_CANCEL => applyResult m .GRIPPER_FAILED
  | .STOWING_PANNING, .PAN_COMPLETE =>
      ({ m with state := .STOWING_TILTING }, ArmCmd m.joints .TILT)
  | .STOWING_PANNING, .TIMEOUT => applyResult m .PAN_FAILED
  | .STOWING_PANNING, .GOAL_CANCEL => applyResult m .PAN_FAILED
  | .STOWING_TILTING, .TILT_COMPLETE => applyResult m .SUCCESS
  | .STOWING_TILTING, .TIMEOUT => applyResult m .TILT_FAILED
  | .STOWING_TILTING, .GOAL_CANCEL => applyResult m .TILT_FAILED
  | .STOWED, .GOAL_MOVE =>
      ({ m with state := .PANNING }, ArmCmd m.joints .PAN)
  | .DEPLOYED, .GOAL_MOVE =>
      ({ m with state := .PANNING }, ArmCmd m.joints .PAN)
  | .PANNING, .PAN_COMPLETE =>
      ({ m with state := .TILTING }, ArmCmd m.joints .TILT)
  | .PANNING, .TIMEOUT => applyResult m .PAN_FAILED
  | .PANNING, .GOAL_CANCEL => applyResult m .PAN_FAILED
  | .TILTING, .TILT_COMPLETE => applyResult m .SUCCESS
  | .TILTING, .TIMEOUT => applyResult m .TILT_FAILED
  | .TILTING, .GOAL_CANCEL => applyResult m .TILT_FAILED
  | .DEPLOYED, .GOAL_SET =>
      ({ m with state := .SETTING }, ArmCmd m.joints .GRIPPER)
  | .SETTING, .GRIPPER_COMPLETE => applyResult m .SUCCESS
  | .SETTING, .TIMEOUT => applyResult m .GRIPPER_FAILED
  | .SETTING, .GOAL_CANCEL => applyResult m .GRIPPER_FAILED
  | .DEPLOYED, .GOAL_CALIBRATE =>
      ({ m with state := .CALIBRATING }, ArmCmd m.joints .GRIPPER)
  | .CALIBRATING, .CALIBRATE_COMPLETE => applyResult m .SUCCESS
  | .CALIBRATING, .TIMEOUT => applyResult m .CALIBRATE_FAILED
  | .CALIBRATING, .GOAL_CANCEL => applyResult m .CALIBRATE_FAILED
  | _, _ => (m, [])

/-- The domain of the transition table: `tableHas s e = true` exactly
when some `fsm_.Add` registration in the constructor covers the pair
`(s, e)`. -/
def tableHas : ArmState → Event → Bool
  | .INITIALIZING, .READY => true
  | .UNKNOWN, .STOWED => true
  | .UNKNOWN, .DEPLOYED => true
  | .STOWED, .DEPLOYED => true
  | .DEPLOYED, .STOWED => true
  | .STOWED, .GOAL_DEPLOY => true
  | .DEPLOYING_PANNING, .PAN_COMPLETE => true
  | .DEPLOYING_TILTING, .TILT_COMPLETE => true
  | .DEPLOYED, .GOAL_STOW => true
  | .STOWING_SETTING, .GRIPPER_COMPLETE => true
  | .STOWING_SETTING, .TIMEOUT => true
  | .STOWING_SETTING, .GOAL_CANCEL => true
  | .STOWING_PANNING, .PAN_COMPLETE => true
  | .STOWING_PANNING, .TIMEOUT => true
  | .STOWING_PANNING, .GOAL_CANCEL => true
  | .STOWING_TILTING, .TILT_COMPLETE => true
  | .STOWING_TILTING, .TIMEOUT => true
  | .STOWING_TILTING, .GOAL_CANCEL => true
  | .STOWED, .GOAL_MOVE => true
  | .DEPLOYED, .GOAL_MOVE => true
  | .PANNING, .PAN_COMPLETE => true
  | .PANNING, .TIMEOUT => true
  | .PANNING, .GOAL_CANCEL => true
  | .TILTING, .TILT_COMPLETE => true
  | .TILTING, .TIMEOUT => true
  | .TILTING, .GOAL_CANCEL => true
  | .DEPLOYED, .GOAL_SET => true
  | .SETTING, .GRIPPER_COMPLETE => true
  | .SETTING, .TIMEOUT => true
  | .SETTING, .GOAL_CANCEL => true
  | .DEPLOYED, .GOAL_CALIBRATE => true
  | .CALIBRATING, .CALIBRATE_COMPLETE => true
  | .CALIBRATING, .TIMEOUT => true
  | .CALIBRATING, .GOAL_CANCEL => true
  | _, _ => false

/-- The command field of `ff_msgs::ArmGoal` (`UNRECOGNIZED` stands for
any value outside the enumerated commands, hitting the `default`
branch of `GoalCallback`). -/
inductive CmdKind
  | ARM_STOP
  | ARM_DEPLOY
  | ARM_STOW
  | ARM_PAN
  | ARM_TILT
  | ARM_MOVE
  | GRIPPER_CALIBRATE
  | GRIPPER_SET
  | GRIPPER_OPEN
  | GRIPPER_CLOSE
  | UNRECOGNIZED
deriving DecidableEq

/-- An `ff_msgs::ArmGoal` message. -/
structure ArmGoal where
  command : CmdKind
  pan : ℚ
  tilt : ℚ
  gripper : ℚ
deriving DecidableEq

/-- A synchronous rejection in `GoalCallback`: `Result(code, true)` with
the returned state discarded — the FSM state is untouched but the goal
snap and the result send still happen. -/
def goalReject (m : Machine) (code : ResponseCode) : Machine × List Output :=
  let r := Result m.state m.joints code true
  (⟨m.state, r.joints⟩, r.outputs)

/-- `new_p` in the ARM_PAN / ARM_TILT / ARM_MOVE case of `GoalCallback`:
the proposed pan value, falling back to the current pan goal when the
command does not specify a pan. -/
def proposedPan (m : Machine) (g : ArmGoal) : ℚ :=
  if g.command = CmdKind.ARM_MOVE ∨ g.command = CmdKind.ARM_PAN
  then g.pan else m.joints.pan.goal

/-- `new_t` in the ARM_PAN / ARM_TILT / ARM_MOVE case of `GoalCallback`:
the proposed tilt value, falling back to the current tilt goal when the
command does not specify a tilt. -/
def proposedTilt (m : Machine) (g : ArmGoal) : ℚ :=
  if g.command = CmdKind.ARM_MOVE ∨ g.command = CmdKind.ARM_TILT
  then g.tilt else m.joints.tilt.goal

/-- The shared `switch` case of `GoalCallback` for ARM_PAN, ARM_TILT and
ARM_MOVE: bounds checks, the self-collision check, then goal update and
GOAL_MOVE. -/
def moveCase (m : Machine) (g : ArmGoal) : Machine × List Output :=
  if m.state = ArmState.DEPLOYED ∨ m.state = ArmState.STOWED then
    if proposedTilt m g < K_TILT_MIN ∨ proposedTilt m g > K_TILT_MAX then
      goalReject m .BAD_TILT_VALUE
    else if proposedPan m g < K_PAN_MIN ∨ proposedPan m g > K_PAN_MAX then
      goalReject m .BAD_PAN_VALUE
    else if proposedTilt m g > K_TILT_SAFE ∧ fabs (proposedPan m g - K_PAN_STOW) > 1/10 then
      goalReject m .COLLISION_AVOIDED
    else
      update
        ⟨m.state,
          (m.joints.setGoal .PAN (proposedPan m g)).setGoal .TILT (proposedTilt m g)⟩
        .GOAL_MOVE
  else goalReject m .NOT_ALLOWED

/-- `ArmNodelet::GoalCallback(goal)`: validates and translates an
external command into goal values and an FSM event; paths that `break`
out of the `switch`, or the `default` branch, reject without raising an
event.  Each branch follows the source case-by-case. -/
def GoalCallback (m : Machine) (g : ArmGoal) : Machine × List Output :=
  match g.command with
  | .ARM_STOP =>
      let j := ((m.joints.setGoal .PAN m.joints.pan.val).setGoal
        .TILT m.joints.tilt.val).setGoal .GRIPPER m.joints.gripper.val
      update ⟨m.state, j⟩ .GOAL_CANCEL
  | .ARM_DEPLOY =>
      if m.state = ArmState.STOWED then
        let j := ((m.joints.setGoal .PAN K_PAN_DEPLOY).setGoal
          .TILT K_TILT_DEPLOY).setGoal .GRIPPER K_GRIPPER_DEPLOY
        update ⟨m.state, j⟩ .GOAL_DEPLOY
      else goalReject m .NOT_ALLOWED
  | .ARM_STOW =>
      if m.state = ArmState.DEPLOYED then
        let j := ((m.joints.setGoal .PAN K_PAN_STOW).setGoal
          .TILT K_TILT_STOW).setGoal .GRIPPER K_GRIPPER_STOW
        update ⟨m.state, j⟩ .GOAL_STOW
      else goalReject m .NOT_ALLOWED
  | .ARM_PAN | .ARM_TILT | .ARM_MOVE => moveCase m g
  | .GRIPPER_CALIBRATE =>
      if m.state = ArmState.DEPLOYED then
        update ⟨m.state, m.joints.setGoal .TILT K_GRIPPER_CAL⟩ .GOAL_CALIBRATE
      else goalReject m .NOT_ALLOWED
  | .GRIPPER_SET =>
      if m.joints.gripper.val < 0 then goalReject m .NEED_TO_CALIBRATE
      else if m.state = ArmState.DEPLOYED then
        if g.gripper < K_GRIPPER_CLOSE ∨ g.gripper > K_GRIPPER_OPEN then
          goalReject m .BAD_GRIPPER_VALUE
        else
          update ⟨m.state, m.joints.setGoal .GRIPPER g.gripper⟩ .GOAL_SET
      else goalReject m .NOT_ALLOWED
  | .GRIPPER_OPEN =>
      if m.joints.gripper.val < 0 then goalReject m .NEED_TO_CALIBRATE
      else if m.state = ArmState.DEPLOYED then
        update ⟨m.state, m.joints.setGoal .GRIPPER K_GRIPPER_OPEN⟩ .GOAL_SET
      else goalReject m .NOT_ALLOWED
  | .GRIPPER_CLOSE =>
      if m.joints.gripper.val < 0 then goalReject m .NEED_TO_CALIBRATE
      else if m.state = ArmState.DEPLOYED then
        update ⟨m.state, m.joints.setGoal .GRIPPER K_GRIPPER_CLOSE⟩ .GOAL_SET
      else goalReject m .NOT_ALLOWED
  | .UNRECOGNIZED => goalReject m .INVALID_COMMAND

/-- One entry of a `sensor_msgs::JointState` telemetry message:
`joint` is the result of the `dictionary_` lookup on the low-level
name (`none` for an unrecognized name, which is skipped), and `value`
is the position already converted to HUMAN form (the affine
driver-to-human conversion, with the gripper calibration-sentinel
special case, happens at this boundary). -/
structure JointSample where
  joint : Option JointType
  value : ℚ
deriving DecidableEq

/-- The per-sample loop of `JointStateCallback`: each recognized sample
overwrites the joint's current value. -/
def applySamples (j : Joints) (batch : List JointSample) : Joints :=
  batch.foldl
    (fun acc s =>
      match s.joint with
      | none => acc
      | some t => acc.setVal t s.value)
    j

/-- Whether a telemetry batch contains at least one recognized sample
(`jss.samples` nonempty in the source). -/
def recognized (batch : List JointSample) : Bool :=
  batch.any (fun s => s.joint.isSome)

/-- The tail of `JointStateCallback` after the `switch` falls through
(`break`): publish the joint samples, then send a feedback snapshot if
the (possibly updated) FSM state is an active sub-action state. -/
def telemetryTail (m : Machine) (acc : List Output) : Machine × List Output :=
  let fb :=
    if activeState m.state then
      [Output.feedbackSent m.state m.joints.pan.val m.joints.tilt.val
        m.joints.gripper.val]
    else []
  (m, acc ++ [Output.jointSamplePublished] ++ fb)

/-- `ArmNodelet::JointStateCallback(msg)`: a batch with no recognized
sample is a no-op; otherwise the joint values are updated, the
watchdog is re-armed, and the `switch (fsm_.GetState())` either
`return`s directly after an FSM update (UNKNOWN always; STOWED /
DEPLOYED when they reclassify) or falls through to publishing and
feedback.  In the nine active sub-action states the goal timer is
stopped and the corresponding completion event raised only when the
per-state condition holds (`Equal` against the waited joint's goal;
for CALIBRATING, the gripper having left the calibration sentinel). -/
def JointStateCallback (m : Machine) (batch : List JointSample) : Machine × List Output :=
  if recognized batch = false then (m, [])
  else
    let j := applySamples m.joints batch
    let m1 : Machine := ⟨m.state, j⟩
    let wd := [Output.watchdogRestart]
    match m.state with
    | .UNKNOWN =>
        let r := if IsStowed j then update m1 .STOWED else update m1 .DEPLOYED
        (r.1, wd ++ r.2)
    | .STOWED =>
        if IsStowed j = false then
          let r := update m1 .DEPLOYED
          (r.1, wd ++ r.2)
        else telemetryTail m1 wd
    | .DEPLOYED =>
        if IsStowed j then
          let r := update m1 .STOWED
          (r.1, wd ++ r.2)
        else telemetryTail m1 wd
    | .INITIALIZING =>
        let r := update m1 .READY
        telemetryTail r.1 (wd ++ r.2)
    | .PANNING | .STOWING_PANNING | .DEPLOYING_PANNING =>
        if Equal j .PAN j.pan.goal then
          let r := update m1 .PAN_COMPLETE
          telemetryTail r.1 (wd ++ [Output.goalTimerStop] ++ r.2)
        else telemetryTail m1 wd
    | .TILTING | .STOWING_TILTING | .DEPLOYING_TILTING =>
        if Equal j .TILT j.tilt.goal then
          let r := update m1 .TILT_COMPLETE
          telemetryTail r.1 (wd ++ [Output.goalTimerStop] ++ r.2)
        else telemetryTail m1 wd
    | .SETTING | .STOWING_SETTING =>
        if Equal j .GRIPPER j.gripper.goal then
          let r := update m1 .GRIPPER_COMPLETE
          telemetryTail r.1 (wd ++ [Output.goalTimerStop] ++ r.2)
        else telemetryTail m1 wd
    | .CALIBRATING =>
        if Equal j .GRIPPER K_GRIPPER_CAL = false then
          let r := update m1 .CALIBRATE_COMPLETE
          telemetryTail r.1 (wd ++ [Output.goalTimerStop] ++ r.2)
        else telemetryTail m1 wd

/-- `ArmNodelet::TimeoutCallback`: the goal timer fired. -/
def TimeoutCallback (m : Machine) : Machine × List Output :=
  update m .TIMEOUT

/-- `ArmNodelet::WatchdogCallback`: telemetry silence exceeded the
watchdog bound; `fsm_.SetState(Result(COMMUNICATION_ERROR))`. -/
def WatchdogCallback (m : Machine) : Machine × List Output :=
  let r := Result m.state m.joints .COMMUNICATION_ERROR false
  (⟨r.next, r.joints⟩, r.outputs)

/-- The per-state completion condition tested by `JointStateCallback` in
the nine active sub-action states: `Equal` of the waited joint against
its goal, except CALIBRATING which waits for the gripper to leave the
calibration sentinel. -/
def waitDone (st : ArmState) (j : Joints) : Bool :=
  match st with
  | .PANNING | .STOWING_PANNING | .DEPLOYING_PANNING => Equal j .PAN j.pan.goal
  | .TILTING | .STOWING_TILTING | .DEPLOYING_TILTING => Equal j .TILT j.tilt.goal
  | .SETTING | .STOWING_SETTING => Equal j .GRIPPER j.gripper.goal
  | .CALIBRATING => !Equal j .GRIPPER K_GRIPPER_CAL
  | _ => false

/-- The completion event `JointStateCallback` raises for each active
sub-action state. -/
def completionEvent : ArmState → Option Event
  | .PANNING | .STOWING_PANNING | .DEPLOYING_PANNING => some .PAN_COMPLETE
  | .TILTING | .STOWING_TILTING | .DEPLOYING_TILTING => some .TILT_COMPLETE
  | .SETTING | .STOWING_SETTING => some .GRIPPER_COMPLETE
  | .CALIBRATING => some .CALIBRATE_COMPLETE
  | _ => none

/-- Whether an output is a downstream joint command. -/
def isJointCommand : Output → Bool
  | .jointCommand _ _ => true
  | _ => false

/-- Exactly the conditions under which `GoalCallback` rejects a command
synchronously (every `Result(code, true); return;` path and every
`break` falling through to `Result(NOT_ALLOWED, true)`). -/
def rejectCondition (m : Machine) (g : ArmGoal) : Bool :=
  match g.command with
  | .ARM_STOP => false
  | .ARM_DEPLOY => !decide (m.state = ArmState.STOWED)
  | .ARM_STOW => !decide (m.state = ArmState.DEPLOYED)
  | .ARM_PAN | .ARM_TILT | .ARM_MOVE =>
      if m.state = ArmState.DEPLOYED ∨ m.state = ArmState.STOWED then
        decide (proposedTilt m g < K_TILT_MIN ∨ proposedTilt m g > K_TILT_MAX) ||
        decide (proposedPan m g < K_PAN_MIN ∨ proposedPan m g > K_PAN_MAX) ||
        decide (proposedTilt m g > K_TILT_SAFE
          ∧ fabs (proposedPan m g - K_PAN_STOW) > 1/10)
      else true
  | .GRIPPER_CALIBRATE => !decide (m.state = ArmState.DEPLOYED)
  | .GRIPPER_SET =>
      decide (m.joints.gripper.val < 0) ||
      !decide (m.state = ArmState.DEPLOYED) ||
      decide (g.gripper < K_GRIPPER_CLOSE ∨ g.gripper > K_GRIPPER_OPEN)
  | .GRIPPER_OPEN =>
      decide (m.joints.gripper.val < 0) || !decide (m.state = ArmState.DEPLOYED)
  | .GRIPPER_CLOSE =>
      decide (m.joints.gripper.val < 0) || !decide (m.state = ArmState.DEPLOYED)
  | .UNRECOGNIZED => true

/-- A fixed joint map used by the concrete witnesses: pan at 0, tilt at
10 and a calibrated gripper at 30, each with goal equal to value except
the pan goal, and 3-degree tolerances. -/
def jW : Joints := ⟨⟨0, 40, 3⟩, ⟨10, 10, 3⟩, ⟨30, 30, 3⟩⟩

/-- Concrete machine for the C3 counterexample: calibrating, with the
gripper at the calibration sentinel and its goal equal to its value. -/
def mC3 : Machine := ⟨.CALIBRATING, ⟨⟨0, 0, 3⟩, ⟨10, 10, 3⟩, ⟨-100, -100, 3⟩⟩⟩

/-- A telemetry batch with one recognized gripper sample at the
calibration sentinel. -/
def batchC3 : List JointSample := [⟨some .GRIPPER, -100⟩]

/-- Concrete machine for the C4 counterexample: a tilt sub-action in
flight. -/
def mC4 : Machine := ⟨.TILTING, ⟨⟨0, 0, 3⟩, ⟨10, 10, 3⟩, ⟨30, 30, 3⟩⟩⟩

/-- `fabs` agrees with the absolute value. -/
theorem fabs_eq_abs (x : ℚ) : fabs x = |x| := by
  unfold fabs
  rcases lt_or_le x 0 with h | h
  · rw [if_pos h, abs_of_neg h]
  · rw [if_neg (not_lt.mpr h), abs_of_nonneg h]

/-- The goal snap in `Result` does not change joint values or
tolerances, so the tolerant comparison is unaffected by it. -/
theorem Equal_snapGoals (j : Joints) (t : JointType) (v : ℚ) :
    Equal (snapGoals j) t v = Equal j t v := by
  cases t <;> rfl

/-- `IsStowed` is likewise unaffected by the goal snap. -/
theorem IsStowed_snapGoals (j : Joints) : IsStowed (snapGoals j) = IsStowed j := by
  unfold IsStowed
  rw [Equal_snapGoals, Equal_snapGoals]

/-- C1: `Result(code)` first snaps every joint's goal to its current
observed value; it reports the outcome on the caller's result channel
whenever the state being left is an active sub-action state; and the
state it resolves to is INITIALIZING when the code is
COMMUNICATION_ERROR, otherwise STOWED when pan and tilt are currently
within wraparound tolerance of the stow pose (pan 0, tilt 180),
otherwise DEPLOYED. -/
theorem C1_result_resolution (st : ArmState) (j : Joints) (code : ResponseCode)
    (send : Bool) :
    (Result st j code send).joints.pan.goal = j.pan.val
    ∧ (Result st j code send).joints.tilt.goal = j.tilt.val
    ∧ (Result st j code send).joints.gripper.goal = j.gripper.val
    ∧ (activeState st = true →
        (Result st j code send).outputs = [Output.resultSent (outcomeOf code) code])
    ∧ (Result st j code send).next =
        (if code = ResponseCode.COMMUNICATION_ERROR then ArmState.INITIALIZING
         else if Equal j .PAN 0 && Equal j .TILT 180 then ArmState.STOWED
         else ArmState.DEPLOYED) := by
  refine ⟨rfl, rfl, rfl, ?_, ?_⟩
  · intro h
    simp [Result, h]
  · show (if code = ResponseCode.COMMUNICATION_ERROR then ArmState.INITIALIZING
      else if IsStowed (snapGoals j) then ArmState.STOWED else ArmState.DEPLOYED) = _
    rw [IsStowed_snapGoals]
    rfl

/-- C1 witness: the resolution of a pan sub-action at a concrete joint
map, with a success code, reports on the result channel and snaps the
pan goal. -/
theorem C1_result_resolution_witness :
    (Result .PANNING jW .SUCCESS false).outputs
      = [Output.resultSent Outcome.SUCCESS_CH ResponseCode.SUCCESS]
    ∧ (Result .PANNING jW .SUCCESS false).joints.pan.goal = jW.pan.val := by
  refine ⟨(C1_result_resolution .PANNING jW .SUCCESS false).2.2.2.1 rfl, ?_⟩
  exact (C1_result_resolution .PANNING jW .SUCCESS false).1

/-- C5: the tolerant comparison computes
`180 - fabs (fabs (value - target) - 180) < tolerance`; the formula is
symmetric under swapping value and target; and at a 3-degree tolerance
it judges 179 degrees and -179 degrees to be at target. -/
theorem C5_wraparound_equality :
    (∀ (j : Joints) (t : JointType) (v : ℚ),
       Equal j t v
         = decide (180 - |(|(j.get t).val - v|) - 180| < (j.get t).tol))
    ∧ (∀ (a b tol : ℚ),
        (180 - |(|a - b|) - 180| < tol) ↔ (180 - |(|b - a|) - 180| < tol))
    ∧ Equal ⟨⟨179, 0, 3⟩, ⟨0, 0, 3⟩, ⟨0, 0, 3⟩⟩ .PAN (-179) = true
    ∧ Equal ⟨⟨-179, 0, 3⟩, ⟨0, 0, 3⟩, ⟨0, 0, 3⟩⟩ .PAN 179 = true := by
  refine ⟨?_, ?_, ?_, ?_⟩
  · intro j t v
    unfold Equal
    rw [fabs_eq_abs, fabs_eq_abs]
  · intro a b tol
    rw [abs_sub_comm a b]
  · simp [Equal, Joints.get, fabs]
    norm_num
  · simp [Equal, Joints.get, fabs]
    norm_num

/-- C2: for every state S and event E without a transition-table entry,
delivering E in S leaves the machine — its state and all three joint
goals — unchanged, and produces no side effect. -/
theorem C2_missing_entries_ignored (m : Machine) (e : Event)
    (h : tableHas m.state e = false) : update m e = (m, []) := by
  obtain ⟨s, j⟩ := m
  cases s <;> cases e <;> first
    | exact Bool.noConfusion h
    | rfl

/-- C2 witness: a TILT_COMPLETE event delivered in STOWED is outside the
table and is ignored. -/
theorem C2_missing_entries_ignored_witness :
    update ⟨.STOWED, jW⟩ .TILT_COMPLETE = (⟨.STOWED, jW⟩, []) :=
  C2_missing_entries_ignored ⟨.STOWED, jW⟩ .TILT_COMPLETE rfl

/-- C7: from DEPLOYED, GOAL_STOW resolves to STOWING_SETTING exactly
when the gripper requires closing — it is calibrated (not at the
calibration sentinel under wraparound equality) and not within
tolerance of the gripper stow position; otherwise it commands pan and
goes directly to STOWING_PANNING. -/
theorem C7_stow_skips_setting (m : Machine) (h : m.state = ArmState.DEPLOYED) :
    RequiresClosing m.joints
      = (!Equal m.joints .GRIPPER K_GRIPPER_CAL
          && !Equal m.joints .GRIPPER K_GRIPPER_STOW)
    ∧ ((update m .GOAL_STOW).1.state = ArmState.STOWING_SETTING
        ↔ RequiresClosing m.joints = true)
    ∧ (RequiresClosing m.joints = true →
        update m .GOAL_STOW
          = ({ m with state := .STOWING_SETTING }, ArmCmd m.joints .GRIPPER))
    ∧ (RequiresClosing m.joints = false →
        update m .GOAL_STOW
          = ({ m with state := .STOWING_PANNING }, ArmCmd m.joints .PAN)) := by
  obtain ⟨s, j⟩ := m
  cases h
  have key : update ⟨ArmState.DEPLOYED, j⟩ .GOAL_STOW
      = if RequiresClosing j then
          ((⟨ArmState.STOWING_SETTING, j⟩ : Machine), ArmCmd j .GRIPPER)
        else ((⟨ArmState.STOWING_PANNING, j⟩ : Machine), ArmCmd j .PAN) := rfl
  refine ⟨?_, ?_, ?_, ?_⟩
  · unfold RequiresClosing
    cases hc : Equal j .GRIPPER K_GRIPPER_CAL <;>
      cases hs : Equal j .GRIPPER K_GRIPPER_STOW <;> simp
  · cases hr : RequiresClosing j <;> rw [key, hr] <;> simp
  · intro hr
    rw [key, hr]
    simp
  · intro hr
    rw [key, hr]
    simp

/-- C7 witness: with a calibrated gripper away from the stow position,
GOAL_STOW in DEPLOYED commands the gripper and enters STOWING_SETTING. -/
theorem C7_stow_skips_setting_witness :
    update ⟨.DEPLOYED, jW⟩ .GOAL_STOW
      = (⟨.STOWING_SETTING, jW⟩, ArmCmd jW .GRIPPER) := by
  have h := (C7_stow_skips_setting ⟨.DEPLOYED, jW⟩ rfl).2.2.1
  have hr : RequiresClosing jW = true := by
    simp [RequiresClosing, Equal, Joints.get, jW, fabs, K_GRIPPER_CAL, K_GRIPPER_STOW]
    norm_num
  exact h hr

/-- C8: if the watchdog expires while PANNING, the machine transitions
to INITIALIZING, a COMMUNICATION_ERROR is reported on the caller's
(aborted) result channel, and the pan and tilt goals are snapped to
their current observed values. -/
theorem C8_watchdog_in_panning (m : Machine) (h : m.state = ArmState.PANNING) :
    (WatchdogCallback m).1.state = ArmState.INITIALIZING
    ∧ Output.resultSent Outcome.ABORTED ResponseCode.COMMUNICATION_ERROR
        ∈ (WatchdogCallback m).2
    ∧ (WatchdogCallback m).1.joints.pan.goal = m.joints.pan.val
    ∧ (WatchdogCallback m).1.joints.tilt.goal = m.joints.tilt.val := by
  obtain ⟨s, j⟩ := m
  cases h
  refine ⟨rfl, ?_, rfl, rfl⟩
  simp [WatchdogCallback, Result, activeState, outcomeOf, responseValue]

/-- C8 witness: concrete watchdog expiry in PANNING. -/
theorem C8_watchdog_in_panning_witness :
    (WatchdogCallback ⟨.PANNING, jW⟩).1.state = ArmState.INITIALIZING
    ∧ (WatchdogCallback ⟨.PANNING, jW⟩).1.joints.pan.goal = jW.pan.val :=
  ⟨(C8_watchdog_in_panning ⟨.PANNING, jW⟩ rfl).1,
   (C8_watchdog_in_panning ⟨.PANNING, jW⟩ rfl).2.2.1⟩

/-- C9: GRIPPER_CALIBRATE received in DEPLOYED sets the tilt joint's
goal — not the gripper joint's — to the calibration sentinel -100,
leaves the pan and gripper goals unchanged, and raises GOAL_CALIBRATE
(the machine enters CALIBRATING, commanding the gripper joint). -/
theorem C9_calibrate_sets_tilt_goal (m : Machine) (g : ArmGoal)
    (hs : m.state = ArmState.DEPLOYED) (hc : g.command = CmdKind.GRIPPER_CALIBRATE) :
    (GoalCallback m g).1.joints.tilt.goal = -100
    ∧ (GoalCallback m g).1.joints.pan.goal = m.joints.pan.goal
    ∧ (GoalCallback m g).1.joints.gripper.goal = m.joints.gripper.goal
    ∧ (GoalCallback m g).1.state = ArmState.CALIBRATING
    ∧ (GoalCallback m g).2 = ArmCmd (m.joints.setGoal .TILT K_GRIPPER_CAL) .GRIPPER := by
  obtain ⟨s, j⟩ := m
  cases hs
  obtain ⟨c, p, t, gr⟩ := g
  cases hc
  have key : GoalCallback ⟨ArmState.DEPLOYED, j⟩ ⟨CmdKind.GRIPPER_CALIBRATE, p, t, gr⟩
      = ((⟨ArmState.CALIBRATING, j.setGoal .TILT K_GRIPPER_CAL⟩ : Machine),
          ArmCmd (j.setGoal .TILT K_GRIPPER_CAL) .GRIPPER) := rfl
  rw [key]
  refine ⟨?_, ?_, ?_, rfl, rfl⟩ <;> simp [Joints.setGoal, K_GRIPPER_CAL]

/-- For any of the three move commands the callback runs the shared
move case. -/
theorem GoalCallback_moveCase (m : Machine) (g : ArmGoal)
    (hc : g.command = CmdKind.ARM_PAN ∨ g.command = CmdKind.ARM_TILT
      ∨ g.command = CmdKind.ARM_MOVE) :
    GoalCallback m g = moveCase m g := by
  obtain ⟨c, p, t, gr⟩ := g
  dsimp only at hc
  rcases hc with h | h | h <;> subst h <;> rfl

/-- C6: a Pan/Tilt/Move command received in STOWED or DEPLOYED is
rejected with BAD_TILT_VALUE when the proposed tilt is outside
[-20, 180]; failing that, with BAD_PAN_VALUE when the proposed pan is
outside [-90, 90]; failing those, with COLLISION_AVOIDED when the
proposed tilt exceeds the 90-degree safe threshold while the proposed
pan deviates from the stow pan (0) by more than 0.1.  In each case the
output list is exactly one aborted result — so no state transition
occurs and no joint command is issued downstream. -/
theorem C6_move_rejections (m : Machine) (g : ArmGoal)
    (hs : m.state = ArmState.DEPLOYED ∨ m.state = ArmState.STOWED)
    (hc : g.command = CmdKind.ARM_PAN ∨ g.command = CmdKind.ARM_TILT
      ∨ g.command = CmdKind.ARM_MOVE) :
    ((proposedTilt m g < -20 ∨ proposedTilt m g > 180) →
        (GoalCallback m g).1.state = m.state
        ∧ (GoalCallback m g).2
            = [Output.resultSent Outcome.ABORTED ResponseCode.BAD_TILT_VALUE])
    ∧ (¬(proposedTilt m g < -20 ∨ proposedTilt m g > 180) →
       (proposedPan m g < -90 ∨ proposedPan m g > 90) →
        (GoalCallback m g).1.state = m.state
        ∧ (GoalCallback m g).2
            = [Output.resultSent Outcome.ABORTED ResponseCode.BAD_PAN_VALUE])
    ∧ (¬(proposedTilt m g < -20 ∨ proposedTilt m g > 180) →
       ¬(proposedPan m g < -90 ∨ proposedPan m g > 90) →
       (proposedTilt m g > 90 ∧ fabs (proposedPan m g - 0) > 1/10) →
        (GoalCallback m g).1.state = m.state
        ∧ (GoalCallback m g).2
            = [Output.resultSent Outcome.ABORTED ResponseCode.COLLISION_AVOIDED]) := by
  rw [GoalCallback_moveCase m g hc]
  unfold moveCase
  simp only [K_TILT_MIN, K_TILT_MAX, K_PAN_MIN, K_PAN_MAX, K_TILT_SAFE, K_PAN_STOW]
  rw [if_pos hs]
  refine ⟨?_, ?_, ?_⟩
  · intro h1
    rw [if_pos h1]
    exact ⟨rfl, rfl⟩
  · intro h1 h2
    rw [if_neg h1, if_pos h2]
    exact ⟨rfl, rfl⟩
  · intro h1 h2 h3
    rw [if_neg h1, if_neg h2, if_pos h3]
    exact ⟨rfl, rfl⟩

/-- C6 witness: the two concrete examples — a move to tilt 200 is
rejected with BAD_TILT_VALUE, and a move to pan 45 / tilt 150 with
COLLISION_AVOIDED; neither changes the state. -/
theorem C6_move_rejections_witness :
    (GoalCallback ⟨.DEPLOYED, jW⟩ ⟨.ARM_MOVE, 0, 200, 0⟩).1.state = ArmState.DEPLOYED
    ∧ (GoalCallback ⟨.DEPLOYED, jW⟩ ⟨.ARM_MOVE, 0, 200, 0⟩).2
        = [Output.resultSent Outcome.ABORTED ResponseCode.BAD_TILT_VALUE]
    ∧ (GoalCallback ⟨.DEPLOYED, jW⟩ ⟨.ARM_MOVE, 45, 150, 0⟩).1.state = ArmState.DEPLOYED
    ∧ (GoalCallback ⟨.DEPLOYED, jW⟩ ⟨.ARM_MOVE, 45, 150, 0⟩).2
        = [Output.resultSent Outcome.ABORTED ResponseCode.COLLISION_AVOIDED] := by
  have h1 := (C6_move_rejections ⟨.DEPLOYED, jW⟩ ⟨.ARM_MOVE, 0, 200, 0⟩
    (Or.inl rfl) (Or.inr (Or.inr rfl))).1
    (by norm_num [proposedTilt])
  have h2 := (C6_move_rejections ⟨.DEPLOYED, jW⟩ ⟨.ARM_MOVE, 45, 150, 0⟩
    (Or.inl rfl) (Or.inr (Or.inr rfl))).2.2
    (by norm_num [proposedTilt])
    (by norm_num [proposedPan])
    (by norm_num [proposedTilt, proposedPan, fabs])
  exact ⟨h1.1, h1.2, h2.1, h2.2⟩

/-- Any rejecting path of the shared move case is state-preserving but
snaps all goals, and emits exactly one aborted result. -/
theorem moveCase_reject (m : Machine) (g : ArmGoal)
    (h : (if m.state = ArmState.DEPLOYED ∨ m.state = ArmState.STOWED then
        decide (proposedTilt m g < K_TILT_MIN ∨ proposedTilt m g > K_TILT_MAX) ||
        decide (proposedPan m g < K_PAN_MIN ∨ proposedPan m g > K_PAN_MAX) ||
        decide (proposedTilt m g > K_TILT_SAFE
          ∧ fabs (proposedPan m g - K_PAN_STOW) > 1/10)
      else true) = true) :
    (moveCase m g).1.state = m.state
    ∧ (moveCase m g).1.joints = snapGoals m.joints
    ∧ ∃ code, (moveCase m g).2 = [Output.resultSent Outcome.ABORTED code] := by
  unfold moveCase
  by_cases hs : m.state = ArmState.DEPLOYED ∨ m.state = ArmState.STOWED
  · rw [if_pos hs] at h ⊢
    by_cases h1 : proposedTilt m g < K_TILT_MIN ∨ proposedTilt m g > K_TILT_MAX
    · rw [if_pos h1]
      exact ⟨rfl, rfl, _, rfl⟩
    · rw [if_neg h1]
      by_cases h2 : proposedPan m g < K_PAN_MIN ∨ proposedPan m g > K_PAN_MAX
      · rw [if_pos h2]
        exact ⟨rfl, rfl, _, rfl⟩
      · rw [if_neg h2]
        by_cases h3 : proposedTilt m g > K_TILT_SAFE
            ∧ fabs (proposedPan m g - K_PAN_STOW) > 1/10
        · rw [if_pos h3]
          exact ⟨rfl, rfl, _, rfl⟩
        · simp only [Bool.or_eq_true, decide_eq_true_eq] at h
          rcases h with (h | h) | h
          · exact absurd h h1
          · exact absurd h h2
          · exact absurd h h3
  · rw [if_neg hs]
    exact ⟨rfl, rfl, _, rfl⟩

/-- C10: every synchronously rejected command leaves the FSM state
unchanged but overwrites all three joint goals with the current
observed values (the goal snap inside `Result(code, true)`), and
delivers exactly one aborted result: a rejection is state-preserving
but not goal-preserving. -/
theorem C10_rejection_frame_effect (m : Machine) (g : ArmGoal)
    (h : rejectCondition m g = true) :
    (GoalCallback m g).1.state = m.state
    ∧ (GoalCallback m g).1.joints = snapGoals m.joints
    ∧ ∃ code, (GoalCallback m g).2 = [Output.resultSent Outcome.ABORTED code] := by
  obtain ⟨c, p, t, gr⟩ := g
  cases c
  case ARM_STOP => exact Bool.noConfusion h
  case ARM_DEPLOY =>
    simp only [rejectCondition, Bool.not_eq_true', decide_eq_false_iff_not] at h
    have key : GoalCallback m ⟨CmdKind.ARM_DEPLOY, p, t, gr⟩
        = if m.state = ArmState.STOWED then
            update ⟨m.state,
              ((m.joints.setGoal .PAN K_PAN_DEPLOY).setGoal .TILT
                K_TILT_DEPLOY).setGoal .GRIPPER K_GRIPPER_DEPLOY⟩ .GOAL_DEPLOY
          else goalReject m .NOT_ALLOWED := rfl
    rw [key, if_neg h]
    exact ⟨rfl, rfl, ResponseCode.NOT_ALLOWED, rfl⟩
  case ARM_STOW =>
    simp only [rejectCondition, Bool.not_eq_true', decide_eq_false_iff_not] at h
    have key : GoalCallback m ⟨CmdKind.ARM_STOW, p, t, gr⟩
        = if m.state = ArmState.DEPLOYED then
            update ⟨m.state,
              ((m.joints.setGoal .PAN K_PAN_STOW).setGoal .TILT
                K_TILT_STOW).setGoal .GRIPPER K_GRIPPER_STOW⟩ .GOAL_STOW
          else goalReject m .NOT_ALLOWED := rfl
    rw [key, if_neg h]
    exact ⟨rfl, rfl, ResponseCode.NOT_ALLOWED, rfl⟩
  case ARM_PAN =>
    rw [GoalCallback_moveCase m ⟨CmdKind.ARM_PAN, p, t, gr⟩ (Or.inl rfl)]
    exact moveCase_reject m ⟨CmdKind.ARM_PAN, p, t, gr⟩ h
  case ARM_TILT =>
    rw [GoalCallback_moveCase m ⟨CmdKind.ARM_TILT, p, t, gr⟩ (Or.inr (Or.inl rfl))]
    exact moveCase_reject m ⟨CmdKind.ARM_TILT, p, t, gr⟩ h
  case ARM_MOVE =>
    rw [GoalCallback_moveCase m ⟨CmdKind.ARM_MOVE, p, t, gr⟩ (Or.inr (Or.inr rfl))]
    exact moveCase_reject m ⟨CmdKind.ARM_MOVE, p, t, gr⟩ h
  case GRIPPER_CALIBRATE =>
    simp only [rejectCondition, Bool.not_eq_true', decide_eq_false_iff_not] at h
    have key : GoalCallback m ⟨CmdKind.GRIPPER_CALIBRATE, p, t, gr⟩
        = if m.state = ArmState.DEPLOYED then
            update ⟨m.state, m.joints.setGoal .TILT K_GRIPPER_CAL⟩ .GOAL_CALIBRATE
          else goalReject m .NOT_ALLOWED := rfl
    rw [key, if_neg h]
    exact ⟨rfl, rfl, ResponseCode.NOT_ALLOWED, rfl⟩
  case GRIPPER_SET =>
    have key : GoalCallback m ⟨CmdKind.GRIPPER_SET, p, t, gr⟩
        = if m.joints.gripper.val < 0 then goalReject m .NEED_TO_CALIBRATE
          else if m.state = ArmState.DEPLOYED then
            if gr < K_GRIPPER_CLOSE ∨ gr > K_GRIPPER_OPEN then
              goalReject m .BAD_GRIPPER_VALUE
            else update ⟨m.state, m.joints.setGoal .GRIPPER gr⟩ .GOAL_SET
          else goalReject m .NOT_ALLOWED := rfl
    by_cases hv : m.joints.gripper.val < 0
    · rw [key, if_pos hv]
      exact ⟨rfl, rfl, ResponseCode.NEED_TO_CALIBRATE, rfl⟩
    · rw [key, if_neg hv]
      by_cases hd : m.state = ArmState.DEPLOYED
      · rw [if_pos hd]
        by_cases hg : gr < K_GRIPPER_CLOSE ∨ gr > K_GRIPPER_OPEN
        · rw [if_pos hg]
          exact ⟨rfl, rfl, ResponseCode.BAD_GRIPPER_VALUE, rfl⟩
        · exfalso
          simp only [rejectCondition, Bool.or_eq_true, Bool.not_eq_true',
            decide_eq_true_eq, decide_eq_false_iff_not] at h
          rcases h with (h | h) | (h | h)
          · exact hv h
          · exact h hd
          · exact hg (Or.inl h)
          · exact hg (Or.inr h)
      · rw [if_neg hd]
        exact ⟨rfl, rfl, ResponseCode.NOT_ALLOWED, rfl⟩
  case GRIPPER_OPEN =>
    have key : GoalCallback m ⟨CmdKind.GRIPPER_OPEN, p, t, gr⟩
        = if m.joints.gripper.val < 0 then goalReject m .NEED_TO_CALIBRATE
          else if m.state = ArmState.DEPLOYED then
            update ⟨m.state, m.joints.setGoal .GRIPPER K_GRIPPER_OPEN⟩ .GOAL_SET
          else goalReject m .NOT_ALLOWED := rfl
    by_cases hv : m.joints.gripper.val < 0
    · rw [key, if_pos hv]
      exact ⟨rfl, rfl, ResponseCode.NEED_TO_CALIBRATE, rfl⟩
    · rw [key, if_neg hv]
      by_cases hd : m.state = ArmState.DEPLOYED
      · exfalso
        simp only [rejectCondition, Bool.or_eq_true, Bool.not_eq_true',
          decide_eq_true_eq, decide_eq_false_iff_not] at h
        rcases h with h | h
        · exact hv h
        · exact h hd
      · rw [if_neg hd]
        exact ⟨rfl, rfl, ResponseCode.NOT_ALLOWED, rfl⟩
  case GRIPPER_CLOSE =>
    have key : GoalCallback m ⟨CmdKind.GRIPPER_CLOSE, p, t, gr⟩
        = if m.joints.gripper.val < 0 then goalReject m .NEED_TO_CALIBRATE
          else if m.state = ArmState.DEPLOYED then
            update ⟨m.state, m.joints.setGoal .GRIPPER K_GRIPPER_CLOSE⟩ .GOAL_SET
          else goalReject m .NOT_ALLOWED := rfl
    by_cases hv : m.joints.gripper.val < 0
    · rw [key, if_pos hv]
      exact ⟨rfl, rfl, ResponseCode.NEED_TO_CALIBRATE, rfl⟩
    · rw [key, if_neg hv]
      by_cases hd : m.state = ArmState.DEPLOYED
      · exfalso
        simp only [rejectCondition, Bool.or_eq_true, Bool.not_eq_true',
          decide_eq_true_eq, decide_eq_false_iff_not] at h
        rcases h with h | h
        · exact hv h
        · exact h hd
      · rw [if_neg hd]
        exact ⟨rfl, rfl, ResponseCode.NOT_ALLOWED, rfl⟩
  case UNRECOGNIZED =>
    exact ⟨rfl, rfl, ResponseCode.INVALID_COMMAND, rfl⟩

/-- C10 witness: a GRIPPER_SET received in STOWED with an uncalibrated
gripper is rejected, keeps the state, and snaps the goals. -/
theorem C10_rejection_frame_effect_witness :
    (GoalCallback ⟨.STOWED, ⟨⟨0, 40, 3⟩, ⟨10, 20, 3⟩, ⟨-100, 30, 3⟩⟩⟩
        ⟨.GRIPPER_SET, 0, 0, 30⟩).1.state = ArmState.STOWED
    ∧ (GoalCallback ⟨.STOWED, ⟨⟨0, 40, 3⟩, ⟨10, 20, 3⟩, ⟨-100, 30, 3⟩⟩⟩
        ⟨.GRIPPER_SET, 0, 0, 30⟩).1.joints
        = snapGoals ⟨⟨0, 40, 3⟩, ⟨10, 20, 3⟩, ⟨-100, 30, 3⟩⟩
    ∧ ∃ code, (GoalCallback ⟨.STOWED, ⟨⟨0, 40, 3⟩, ⟨10, 20, 3⟩, ⟨-100, 30, 3⟩⟩⟩
        ⟨.GRIPPER_SET, 0, 0, 30⟩).2 = [Output.resultSent Outcome.ABORTED code] :=
  C10_rejection_frame_effect ⟨.STOWED, ⟨⟨0, 40, 3⟩, ⟨10, 20, 3⟩, ⟨-100, 30, 3⟩⟩⟩
    ⟨.GRIPPER_SET, 0, 0, 30⟩ (by norm_num [rejectCondition])

/-- C4 counterexample: resolving a successful tilt sub-action
(TILT_COMPLETE in TILTING invokes `Result(SUCCESS)`) emits exactly one
output — the result sent to the caller — and in particular no
hold-position joint command for the pan joint (nor any other): the
`Arm(PAN); Arm(TILT);` re-issue in `Result` is commented out in the
source. -/
theorem C4_counterexample :
    (update mC4 Event.TILT_COMPLETE).2
      = [Output.resultSent Outcome.SUCCESS_CH ResponseCode.SUCCESS]
    ∧ Output.jointCommand .PAN mC4.joints.pan.val ∉ (update mC4 Event.TILT_COMPLETE).2 := by
  have key : (update mC4 Event.TILT_COMPLETE).2
      = [Output.resultSent (outcomeOf .SUCCESS) .SUCCESS] := rfl
  rw [key]
  exact ⟨rfl, by simp⟩

/-- C4 amended: every invocation of `Result` snaps all three joint goals
to the current observed values — the hold-position intent is recorded
in the goal fields — but emits no joint command downstream (its output
list never contains a joint command). -/
theorem C4_no_hold_commands (st : ArmState) (j : Joints) (code : ResponseCode)
    (send : Bool) :
    (Result st j code send).joints = snapGoals j
    ∧ ((Result st j code send).outputs.all fun o => !isJointCommand o) = true := by
  refine ⟨rfl, ?_⟩
  have key : (Result st j code send).outputs
      = if (send || activeState st) = true
        then [Output.resultSent (outcomeOf code) code] else [] := rfl
  rw [key]
  cases send || activeState st <;> simp [isJointCommand]

/-- C3 counterexample: in the active sub-action state CALIBRATING, a
telemetry batch with a recognized gripper sample leaves the gripper at
the calibration sentinel with its value within wraparound tolerance of
its goal (`isAtTarget` holds), yet the goal timer is not cancelled and
no CALIBRATE_COMPLETE is raised (the state stays CALIBRATING): the
CALIBRATING branch tests that the gripper has left the sentinel, not
`isAtTarget`. -/
theorem C3_counterexample :
    activeState mC3.state = true
    ∧ recognized batchC3 = true
    ∧ Equal (applySamples mC3.joints batchC3) .GRIPPER
        (applySamples mC3.joints batchC3).gripper.goal = true
    ∧ Output.goalTimerStop ∉ (JointStateCallback mC3 batchC3).2
    ∧ (JointStateCallback mC3 batchC3).1.state = ArmState.CALIBRATING := by
  have heq : Equal (applySamples mC3.joints batchC3) .GRIPPER K_GRIPPER_CAL = true := by
    simp [Equal, Joints.get, applySamples, batchC3, mC3, Joints.setVal, fabs,
      K_GRIPPER_CAL]
  have hgoal : (applySamples mC3.joints batchC3).gripper.goal = K_GRIPPER_CAL := rfl
  have hnr : ¬ (recognized batchC3 = false) := by simp [recognized, batchC3]
  have hcb : JointStateCallback mC3 batchC3
      = telemetryTail ⟨ArmState.CALIBRATING, applySamples mC3.joints batchC3⟩
          [Output.watchdogRestart] := by
    unfold JointStateCallback
    rw [if_neg hnr]
    exact if_neg (by simp [heq])
  refine ⟨rfl, rfl, ?_, ?_, ?_⟩
  · rw [hgoal]
    exact heq
  · rw [hcb]
    simp [telemetryTail, activeState]
  · rw [hcb]
    rfl

/-- C3 amended: in every active sub-action state, processing a telemetry
batch with at least one recognized sample cancels the goal timer and
raises the corresponding completion event exactly when the per-state
wait condition holds after the value update — `Equal` of the waited
joint against its goal for the panning / tilting / gripper-setting
states, and the gripper having left the calibration sentinel (NOT
`isAtTarget`) for CALIBRATING; otherwise the state and the updated
joint map are kept as they are. -/
theorem C3_completion_events (m : Machine) (batch : List JointSample)
    (hr : recognized batch = true) (ha : activeState m.state = true) :
    (Output.goalTimerStop ∈ (JointStateCallback m batch).2
      ↔ waitDone m.state (applySamples m.joints batch) = true)
    ∧ (waitDone m.state (applySamples m.joints batch) = true →
        ∃ e, completionEvent m.state = some e
          ∧ (JointStateCallback m batch).1
              = (update ⟨m.state, applySamples m.joints batch⟩ e).1)
    ∧ (waitDone m.state (applySamples m.joints batch) = false →
        (JointStateCallback m batch).1
          = ⟨m.state, applySamples m.joints batch⟩) := by
  obtain ⟨s, j⟩ := m
  have hnr : ¬ (recognized batch = false) := by simp [hr]
  cases s
  case INITIALIZING => exact Bool.noConfusion ha
  case UNKNOWN => exact Bool.noConfusion ha
  case STOWED => exact Bool.noConfusion ha
  case DEPLOYED => exact Bool.noConfusion ha
  case PANNING =>
    unfold JointStateCallback
    rw [if_neg hnr]
    dsimp only
    cases hcond : Equal (applySamples j batch) JointType.PAN
        (applySamples j batch).pan.goal
    case false =>
      rw [if_neg (by simp [hcond])]
      refine ⟨?_, ?_, ?_⟩
      · simp [telemetryTail, waitDone, hcond, activeState]
      · intro hw
        simp [waitDone, hcond] at hw
      · intro _
        rfl
    case true =>
      rw [if_pos rfl]
      refine ⟨?_, ?_, ?_⟩
      · simp [telemetryTail, waitDone, hcond]
      · intro _
        exact ⟨Event.PAN_COMPLETE, rfl, rfl⟩
      · intro hw
        simp [waitDone, hcond] at hw
  case STOWING_PANNING =>
    unfold JointStateCallback
    rw [if_neg hnr]
    dsimp only
    cases hcond : Equal (applySamples j batch) JointType.PAN
        (applySamples j batch).pan.goal
    case false =>
      rw [if_neg (by simp [hcond])]
      refine ⟨?_, ?_, ?_⟩
      · simp [telemetryTail, waitDone, hcond, activeState]
      · intro hw
        simp [waitDone, hcond] at hw
      · intro _
        rfl
    case true =>
      rw [if_pos rfl]
      refine ⟨?_, ?_, ?_⟩
      · simp [telemetryTail, waitDone, hcond]
      · intro _
        exact ⟨Event.PAN_COMPLETE, rfl, rfl⟩
      · intro hw
        simp [waitDone, hcond] at hw
  case DEPLOYING_PANNING =>
    unfold JointStateCallback
    rw [if_neg hnr]
    dsimp only
    cases hcond : Equal (applySamples j batch) JointType.PAN
        (applySamples j batch).pan.goal
    case false =>
      rw [if_neg (by simp [hcond])]
      refine ⟨?_, ?_, ?_⟩
      · simp [telemetryTail, waitDone, hcond, activeState]
      · intro hw
        simp [waitDone, hcond] at hw
      · intro _
        rfl
    case true =>
      rw [if_pos rfl]
      refine ⟨?_, ?_, ?_⟩
      · simp [telemetryTail, waitDone, hcond]
      · intro _
        exact ⟨Event.PAN_COMPLETE, rfl, rfl⟩
      · intro hw
        simp [waitDone, hcond] at hw
  case TILTING =>
    unfold JointStateCallback
    rw [if_neg hnr]
    dsimp only
    cases hcond : Equal (applySamples j batch) JointType.TILT
        (applySamples j batch).tilt.goal
    case false =>
      rw [if_neg (by simp [hcond])]
      refine ⟨?_, ?_, ?_⟩
      · simp [telemetryTail, waitDone, hcond, activeState]
      · intro hw
        simp [waitDone, hcond] at hw
      · intro _
        rfl
    case true =>
      rw [if_pos rfl]
      refine ⟨?_, ?_, ?_⟩
      · simp [telemetryTail, waitDone, hcond]
      · intro _
        exact ⟨Event.TILT_COMPLETE, rfl, rfl⟩
      · intro hw
        simp [waitDone, hcond] at hw
  case STOWING_TILTING =>
    unfold JointStateCallback
    rw [if_neg hnr]
    dsimp only
    cases hcond : Equal (applySamples j batch) JointType.TILT
        (applySamples j batch).tilt.goal
    case false =>
      rw [if_neg (by simp [hcond])]
      refine ⟨?_, ?_, ?_⟩
      · simp [telemetryTail, waitDone, hcond, activeState]
      · intro hw
        simp [waitDone, hcond] at hw
      · intro _
        rfl
    case true =>
      rw [if_pos rfl]
      refine ⟨?_, ?_, ?_⟩
      · simp [telemetryTail, waitDone, hcond]
      · intro _
        exact ⟨Event.TILT_COMPLETE, rfl, rfl⟩
      · intro hw
        simp [waitDone, hcond] at hw
  case DEPLOYING_TILTING =>
    unfold JointStateCallback
    rw [if_neg hnr]
    dsimp only
    cases hcond : Equal (applySamples j batch) JointType.TILT
        (applySamples j batch).tilt.goal
    case false =>
      rw [if_neg (by simp [hcond])]
      refine ⟨?_, ?_, ?_⟩
      · simp [telemetryTail, waitDone, hcond, activeState]
      · intro hw
        simp [waitDone, hcond] at hw
      · intro _
        rfl
    case true =>
      rw [if_pos rfl]
      refine ⟨?_, ?_, ?_⟩
      · simp [telemetryTail, waitDone, hcond]
      · intro _
        exact ⟨Event.TILT_COMPLETE, rfl, rfl⟩
      · intro hw
        simp [waitDone, hcond] at hw
  case SETTING =>
    unfold JointStateCallback
    rw [if_neg hnr]
    dsimp only
    cases hcond : Equal (applySamples j batch) JointType.GRIPPER
        (applySamples j batch).gripper.goal
    case false =>
      rw [if_neg (by simp [hcond])]
      refine ⟨?_, ?_, ?_⟩
      · simp [telemetryTail, waitDone, hcond, activeState]
      · intro hw
        simp [waitDone, hcond] at hw
      · intro _
        rfl
    case true =>
      rw [if_pos rfl]
      refine ⟨?_, ?_, ?_⟩
      · simp [telemetryTail, waitDone, hcond]
      · intro _
        exact ⟨Event.GRIPPER_COMPLETE, rfl, rfl⟩
      · intro hw
        simp [waitDone, hcond] at hw
  case STOWING_SETTING =>
    unfold JointStateCallback
    rw [if_neg hnr]
    dsimp only
    cases hcond : Equal (applySamples j batch) JointType.GRIPPER
        (applySamples j batch).gripper.goal
    case false =>
      rw [if_neg (by simp [hcond])]
      refine ⟨?_, ?_, ?_⟩
      · simp [telemetryTail, waitDone, hcond, activeState]
      · intro hw
        simp [waitDone, hcond] at hw
      · intro _
        rfl
    case true =>
      rw [if_pos rfl]
      refine ⟨?_, ?_, ?_⟩
      · simp [telemetryTail, waitDone, hcond]
      · intro _
        exact ⟨Event.GRIPPER_COMPLETE, rfl, rfl⟩
      · intro hw
        simp [waitDone, hcond] at hw
  case CALIBRATING =>
    unfold JointStateCallback
    rw [if_neg hnr]
    dsimp only
    cases hcond : Equal (applySamples j batch) JointType.GRIPPER K_GRIPPER_CAL
    case true =>
      rw [if_neg (by simp [hcond])]
      refine ⟨?_, ?_, ?_⟩
      · simp [telemetryTail, waitDone, hcond, activeState]
      · intro hw
        simp [waitDone, hcond] at hw
      · intro _
        rfl
    case false =>
      rw [if_pos rfl]
      refine ⟨?_, ?_, ?_⟩
      · simp [telemetryTail, waitDone, hcond]
      · intro _
        exact ⟨Event.CALIBRATE_COMPLETE, rfl, rfl⟩
      · intro hw
        simp [waitDone, hcond] at hw

/-- C3 amended witness: a pan sub-action completes on a telemetry sample
that reaches the pan goal — the goal timer stops and the machine moves
on to TILTING. -/
theorem C3_completion_events_witness :
    Output.goalTimerStop
      ∈ (JointStateCallback ⟨.PANNING, ⟨⟨0, 40, 3⟩, ⟨10, 10, 3⟩, ⟨30, 30, 3⟩⟩⟩
          [⟨some .PAN, 40⟩]).2 := by
  have h := (C3_completion_events ⟨.PANNING, ⟨⟨0, 40, 3⟩, ⟨10, 10, 3⟩, ⟨30, 30, 3⟩⟩⟩
    [⟨some .PAN, 40⟩] rfl rfl).1
  rw [h]
  simp [waitDone, applySamples, Joints.setVal, Equal, Joints.get, fabs]

/-- C9 witness: concrete GRIPPER_CALIBRATE in DEPLOYED. -/
theorem C9_calibrate_sets_tilt_goal_witness :
    (GoalCallback ⟨.DEPLOYED, jW⟩ ⟨.GRIPPER_CALIBRATE, 0, 0, 0⟩).1.joints.tilt.goal = -100
    ∧ (GoalCallback ⟨.DEPLOYED, jW⟩ ⟨.GRIPPER_CALIBRATE, 0, 0, 0⟩).1.joints.gripper.goal
        = jW.gripper.goal
    ∧ (GoalCallback ⟨.DEPLOYED, jW⟩ ⟨.GRIPPER_CALIBRATE, 0, 0, 0⟩).1.state
        = ArmState.CALIBRATING :=
  ⟨(C9_calibrate_sets_tilt_goal ⟨.DEPLOYED, jW⟩ ⟨.GRIPPER_CALIBRATE, 0, 0, 0⟩ rfl rfl).1,
   (C9_calibrate_sets_tilt_goal ⟨.DEPLOYED, jW⟩ ⟨.GRIPPER_CALIBRATE, 0, 0, 0⟩ rfl rfl).2.2.1,
   (C9_calibrate_sets_tilt_goal ⟨.DEPLOYED, jW⟩ ⟨.GRIPPER_CALIBRATE, 0, 0, 0⟩ rfl rfl).2.2.2.1⟩

end ArmNodelet
